import Mathlib

/-!
Verification of the whatsapp-gateway server (`server.js`).

The server keeps four module-level mutable variables (`client`, `qrCodeData`,
`isReady`, `isInitializing`) and exposes REST endpoints that read and mutate
them.  We embed that mutable state as `GatewayState` and each route handler /
event handler as a pure function on it.  The external protocol client is
opaque: we record only whether an instance exists (`client`), count how many
times `new Client(...)` ran (`constructed`, a ghost counter for the
double-initialization claims), and model its fallible operations
(`destroy`, `logout`, `isRegisteredUser`, media fetch) by Boolean parameters
and an oracle structure.  Handlers of the send endpoints do not write the
module state in the source, so they return a response plus the ordered list
of calls they issue to the external client (`Effect`), which lets us state
that nothing external is attempted on an early-return path.
-/

/-- The module-level mutable state of `server.js` (lines 10-13), plus a ghost
counter `constructed` counting executions of `new Client(...)` (line 32). -/
structure GatewayState where
  client : Bool
  qrCodeData : Option String
  isReady : Bool
  isInitializing : Bool
  constructed : Nat
deriving DecidableEq, Repr

/-- State at process start, before line 395 runs: no client, no QR, not
ready, not initializing. -/
def initialState : GatewayState :=
  { client := false, qrCodeData := none, isReady := false
    isInitializing := false, constructed := 0 }

/-- The empty string, named so defaults can be passed by name. -/
def emptyS : String := ""

/-- Default filename used by the media endpoint (`filename || 'file'`). -/
def defaultFilename : String := "file"

/-- Log line of restart's inner catch (line 152). -/
def destroyLogMsg : String := "Error destroying client"

/-- JavaScript truthiness of an optional string field: `undefined`/missing
and the empty string are falsy, every other string is truthy. -/
def truthy : Option String → Bool
  | none => false
  | some s => s ≠ ""

/-- JavaScript `x || d` for an optional string `x`: the default `d` is used
when `x` is missing or empty. -/
def jsOr (x : Option String) (d : String) : String :=
  match x with
  | none => d
  | some s => if s = "" then d else s

/-- `initializeClient` (server.js lines 16-110): returns early if already
initializing, or if a client exists and is ready; otherwise sets the flags,
clears the QR artifact and constructs a fresh external client. -/
def initializeClient (s : GatewayState) : GatewayState :=
  if s.isInitializing then s
  else if s.client && s.isReady then s
  else
    { s with isInitializing := true, qrCodeData := none, isReady := false
             client := true, constructed := s.constructed + 1 }

/-- Handler of the external `qr` event (lines 55-60): stores the artifact
and clears `isInitializing`. -/
def onQr (qr : String) (s : GatewayState) : GatewayState :=
  { s with qrCodeData := some qr, isInitializing := false }

/-- Handler of the external `ready` event (lines 63-68). -/
def onReady (s : GatewayState) : GatewayState :=
  { s with isReady := true, qrCodeData := none, isInitializing := false }

/-- Handler of the external `authenticated` event (lines 71-74): clears the
QR artifact only. -/
def onAuthenticated (s : GatewayState) : GatewayState :=
  { s with qrCodeData := none }

/-- Handler of the external `auth_failure` event (lines 77-82). -/
def onAuthFailure (s : GatewayState) : GatewayState :=
  { s with isReady := false, qrCodeData := none, isInitializing := false }

/-- Handler of the external `disconnected` event (lines 85-90). -/
def onDisconnected (s : GatewayState) : GatewayState :=
  { s with isReady := false, qrCodeData := none, isInitializing := false }

/-- JSON envelope returned by the lifecycle endpoints. -/
structure ApiResponse where
  httpStatus : Nat
  status : String
  message : String
deriving DecidableEq, Repr

/-- `POST /api/start` (lines 115-142). -/
def apiStart (s : GatewayState) : ApiResponse × GatewayState :=
  if s.isReady then
    ({ httpStatus := 200, status := "info"
       message := "WhatsApp client already connected" }, s)
  else if s.isInitializing then
    ({ httpStatus := 200, status := "info"
       message := "WhatsApp client is initializing..." }, s)
  else if !s.client then
    ({ httpStatus := 200, status := "success"
       message := "WhatsApp client started. Please check /api/qr for QR code" },
     initializeClient s)
  else
    ({ httpStatus := 200, status := "info"
       message := "WhatsApp client already exists" }, s)

/-- Result of `POST /api/restart`: the response sent, the state as it stands
when the response is sent (the settling timer of line 162 has not fired yet;
its expiry is modelled separately by `Op.initClient`), and the console log
entries produced. -/
structure RestartResult where
  response : ApiResponse
  state : GatewayState
  log : List String
deriving Repr

/-- `POST /api/restart` (lines 145-176).  `destroyFails` says whether
`client.destroy()` throws; the inner catch (lines 151-153) only logs that
failure, then the handler nulls the client, resets the flags, schedules
`initializeClient` after the settling delay and answers success.  The outer
catch (line 170) is unreachable: every fallible step is already guarded. -/
def apiRestart (destroyFails : Bool) (s : GatewayState) : RestartResult :=
  { response :=
      { httpStatus := 200, status := "success"
        message := "WhatsApp client restarting. Check /api/qr in a few seconds" }
    state :=
      { s with client := false, isReady := false, qrCodeData := none
               isInitializing := false }
    log := if s.client && destroyFails then [destroyLogMsg] else [] }

/-- `POST /api/logout` (lines 351-377).  `logoutFails` / `destroyFails` say
whether `client.logout()` / `client.destroy()` throw.  Both calls sit inside
the outer try only, so a throw from either jumps to the catch of line 371,
which answers HTTP 500 before any of the state resets of lines 356-359 ran:
the state is returned unchanged.  (The 500 message is the thrown error's own
message; we use a fixed placeholder for it.) -/
def apiLogout (logoutFails destroyFails : Bool) (s : GatewayState) :
    ApiResponse × GatewayState :=
  if s.client then
    if logoutFails || destroyFails then
      ({ httpStatus := 500, status := "error"
         message := "error thrown by client.logout() or client.destroy()" }, s)
    else
      ({ httpStatus := 200, status := "success"
         message := "Logged out successfully. Use /api/restart to reconnect" },
       { s with client := false, isReady := false, qrCodeData := none
                isInitializing := false })
  else
    ({ httpStatus := 200, status := "info", message := "No active session" }, s)

/-- JSON envelope of `GET /api/qr`. -/
structure QrResponse where
  status : String
  message : String
  qr : Option String
deriving DecidableEq, Repr

/-- `GET /api/qr` (lines 179-209).  Note the JavaScript truthiness tests
`!qrCodeData` (line 188) and `if (qrCodeData)` (line 196): an empty-string
artifact counts as absent here. -/
def apiQr (s : GatewayState) : QrResponse :=
  if s.isReady then
    { status := "ready", message := "WhatsApp already connected", qr := none }
  else if s.isInitializing && !truthy s.qrCodeData then
    { status := "initializing"
      message := "Client is initializing, please wait...", qr := none }
  else if truthy s.qrCodeData then
    { status := "success", message := "Scan QR code with WhatsApp"
      qr := s.qrCodeData }
  else
    { status := "waiting"
      message := "Waiting for QR code. Try /api/start or /api/restart"
      qr := none }

/-- JSON envelope of `GET /api/status`. -/
structure StatusResponse where
  status : String
  isReady : Bool
  isInitializing : Bool
  hasQR : Bool
  hasClient : Bool
  message : String
deriving DecidableEq, Repr

/-- `GET /api/status` (lines 212-225).  `hasQR` is `qrCodeData !== null`, a
strict null test (unlike the truthiness tests of `/api/qr`). -/
def apiStatus (s : GatewayState) : StatusResponse :=
  { status :=
      if s.isReady then "ready"
      else if s.isInitializing then "initializing" else "not_ready"
    isReady := s.isReady
    isInitializing := s.isInitializing
    hasQR := s.qrCodeData.isSome
    hasClient := s.client
    message :=
      if s.isReady then "WhatsApp is connected"
      else if s.isInitializing then "WhatsApp is initializing..."
      else "WhatsApp is not connected" }

/-- The digits kept by `phone.replace(/[^0-9]/g, '')` (lines 247 and 310):
every character outside `0`-`9` is dropped. -/
def digitsOf (l : List Char) : List Char := l.filter Char.isDigit

/-- The two sequential rewrites of lines 249-255 (identical at lines
312-318): a leading `0` becomes `62`, then `62` is prepended when the string
does not already lead with it. -/
def addCountryCode (d : List Char) : List Char :=
  let d1 := if d.take 1 = ['0'] then '6' :: '2' :: d.drop 1 else d
  if d1.take 2 = ['6', '2'] then d1 else '6' :: '2' :: d1

/-- `formattedPhone` as computed by both send endpoints: strip the
non-digits, then fix the country code. -/
def formatPhone (s : String) : String :=
  String.mk (addCountryCode (digitsOf s.data))

/-- `chatId` (lines 257 and 320): the formatted digits plus the messaging
domain suffix. -/
def chatIdOf (s : String) : String := formatPhone s ++ "@c.us"

/-- The reference normalization algorithm in the spec's own words: strip
every non-digit; if the digit string starts with the trunk `0`, replace that
leading digit with `62`; otherwise, if it does not already start with `62`,
prepend `62`; append the domain suffix. -/
def specNormalize (s : String) : String :=
  let d := s.data.filter Char.isDigit
  let d1 :=
    if d.take 1 = ['0'] then '6' :: '2' :: d.drop 1
    else if d.take 2 = ['6', '2'] then d
    else '6' :: '2' :: d
  String.mk d1 ++ "@c.us"

/-- Calls the send handlers issue to the external client, in order: the
registration check (line 260), the text send (line 270), the media fetch
(line 324) and the media send (line 328). -/
inductive Effect where
  | isRegisteredUser (chatId : String)
  | sendText (chatId : String) (body : String)
  | fetchMedia (url : String) (filename : String)
  | sendMedia (chatId : String) (caption : String)
deriving DecidableEq, Repr

/-- Behaviour of the opaque external client during a send: which chat ids it
reports registered, the serialized id (`result.id._serialized`) it returns
for a send, and which media URLs `MessageMedia.fromUrl` fetches without
throwing. -/
structure ClientOracle where
  registered : String → Bool
  sendResultId : String → String
  fetchOk : String → Bool

/-- JSON envelope of the send endpoints; `dataPhone`/`dataMessageId` are the
`data` fields of the success responses. -/
structure SendResponse where
  httpStatus : Nat
  status : String
  message : String
  dataPhone : Option String := none
  dataMessageId : Option String := none
deriving DecidableEq, Repr

/-- `POST /api/send-message` (lines 228-288).  The handler never writes the
module state; it returns the response plus the ordered external calls. -/
def apiSendMessage (o : ClientOracle) (s : GatewayState)
    (phone message : Option String) : SendResponse × List Effect :=
  if !s.isReady then
    ({ httpStatus := 400, status := "error"
       message := "WhatsApp is not ready" }, [])
  else if !truthy phone || !truthy message then
    ({ httpStatus := 400, status := "error"
       message := "Phone and message are required" }, [])
  else
    let chatId := chatIdOf (phone.getD emptyS)
    if !o.registered chatId then
      ({ httpStatus := 400, status := "error"
         message := "Phone number is not registered on WhatsApp" },
       [Effect.isRegisteredUser chatId])
    else
      ({ httpStatus := 200, status := "success"
         message := "Message sent successfully"
         dataPhone := some (formatPhone (phone.getD emptyS))
         dataMessageId := some (o.sendResultId chatId) },
       [Effect.isRegisteredUser chatId,
        Effect.sendText chatId (message.getD "")])

/-- `POST /api/send-media` (lines 291-348).  No registration check is made;
`MessageMedia.fromUrl` runs first (a throw lands in the catch of line 341,
answering HTTP 500 with the thrown error's message, modelled by a fixed
placeholder), then the media is sent with the defaulted caption. -/
def apiSendMedia (o : ClientOracle) (s : GatewayState)
    (phone mediaUrl caption filename : Option String) :
    SendResponse × List Effect :=
  if !s.isReady then
    ({ httpStatus := 400, status := "error"
       message := "WhatsApp is not ready" }, [])
  else if !truthy phone || !truthy mediaUrl then
    ({ httpStatus := 400, status := "error"
       message := "Phone and mediaUrl are required" }, [])
  else
    let chatId := chatIdOf (phone.getD emptyS)
    let url := mediaUrl.getD emptyS
    let fetch := Effect.fetchMedia url (jsOr filename defaultFilename)
    if !o.fetchOk url then
      ({ httpStatus := 500, status := "error"
         message := "error thrown by MessageMedia.fromUrl" }, [fetch])
    else
      ({ httpStatus := 200, status := "success"
         message := "Media sent successfully"
         dataPhone := some (formatPhone (phone.getD emptyS))
         dataMessageId := some (o.sendResultId chatId) },
       [fetch, Effect.sendMedia chatId (jsOr caption emptyS)])

/-- One state-mutating step of the system: a lifecycle command arriving over
HTTP, a direct `initializeClient` run (the module-load call of line 395, or
the expiry of restart's settling timer at line 162), or an event emitted by
the external client.  Events only fire when a client instance exists to emit
them; the send handlers never write the state, so they induce no step. -/
inductive Op where
  | start
  | initClient
  | restart (destroyFails : Bool)
  | logout (logoutFails destroyFails : Bool)
  | qrEvent (qr : String)
  | readyEvent
  | authenticatedEvent
  | authFailureEvent
  | disconnectedEvent
deriving DecidableEq, Repr

/-- The state after one step. -/
def applyOp (s : GatewayState) : Op → GatewayState
  | Op.start => (apiStart s).2
  | Op.initClient => initializeClient s
  | Op.restart df => (apiRestart df s).state
  | Op.logout lf df => (apiLogout lf df s).2
  | Op.qrEvent qr => if s.client then onQr qr s else s
  | Op.readyEvent => if s.client then onReady s else s
  | Op.authenticatedEvent => if s.client then onAuthenticated s else s
  | Op.authFailureEvent => if s.client then onAuthFailure s else s
  | Op.disconnectedEvent => if s.client then onDisconnected s else s

/-- The state after a sequence of steps. -/
def runOps (s : GatewayState) (ops : List Op) : GatewayState :=
  ops.foldl applyOp s

/-- The state right after module load: line 395 calls `initializeClient`
on the fresh state. -/
def bootState : GatewayState := initializeClient initialState

/-! ### Concrete inputs used by examples and witnesses -/

/-- Example phone number with a trunk `0` (from the spec's examples). -/
def phoneExampleTrunk : String := "081234567890"

/-- Example phone number already carrying the country code. -/
def phoneExampleCc : String := "6281234567890"

/-- Example phone number with neither trunk `0` nor country code. -/
def phoneExampleBare : String := "81234567890"

/-- Normalized form shared by the three examples above. -/
def phoneExpected : String := "6281234567890@c.us"

/-- A concrete external-client behaviour used by witnesses: no destination
is registered, every media URL fetches fine. -/
def oracleNoneRegistered : ClientOracle :=
  { registered := fun _ => false
    sendResultId := fun _ => "true_12345@c.us_ABCDEF"
    fetchOk := fun _ => true }

/-- A concrete external-client behaviour used by witnesses: every
destination is registered, every media URL fetches fine. -/
def oracleAllRegistered : ClientOracle :=
  { registered := fun _ => true
    sendResultId := fun _ => "true_12345@c.us_ABCDEF"
    fetchOk := fun _ => true }

/-- A concrete Ready-state session used by witnesses. -/
def readyStateW : GatewayState :=
  { client := true, qrCodeData := none, isReady := true
    isInitializing := false, constructed := 1 }

/-- A concrete op sequence of start commands and initializeClient runs. -/
def startOpsW : List Op := [Op.start, Op.initClient, Op.start, Op.start]

/-- A concrete QR token. -/
def qrTokenW : String := "QR-TOKEN-1"

/-- A concrete phone-number field value. -/
def phoneW : String := "081111"

/-- A concrete message body. -/
def msgBodyW : String := "hi"

/-- A concrete media URL. -/
def mediaUrlW : String := "https://example.com/a.png"

/-! ### Normalization lemmas -/

/-- The country-code fixup always leaves a string that starts with `62`. -/
lemma addCountryCode_take_two (d : List Char) :
    (addCountryCode d).take 2 = ['6', '2'] := by
  by_cases h1 : d.take 1 = ['0']
  · simp [addCountryCode, h1]
  · by_cases h2 : d.take 2 = ['6', '2'] <;> simp [addCountryCode, h1, h2]

/-- Every character of the fixed-up string is `6`, `2`, or from the input. -/
lemma addCountryCode_mem (d : List Char) (c : Char)
    (hc : c ∈ addCountryCode d) : c = '6' ∨ c = '2' ∨ c ∈ d := by
  have hdrop : ∀ x ∈ d.drop 1, x ∈ d := fun x hx => List.drop_subset 1 d hx
  simp only [addCountryCode] at hc
  split_ifs at hc <;>
    (try simp only [List.mem_cons] at hc) <;>
    tauto

/-- The fixup is idempotent. -/
lemma addCountryCode_idem (d : List Char) :
    addCountryCode (addCountryCode d) = addCountryCode d := by
  have h2 := addCountryCode_take_two d
  have h1 : (addCountryCode d).take 1 = ['6'] := by
    have h := congrArg (List.take 1) h2
    rw [List.take_take] at h
    norm_num at h
    exact h
  have hne : ¬ (addCountryCode d).take 1 = ['0'] := by
    rw [h1]
    decide
  conv_lhs => rw [addCountryCode]
  simp [hne, h2]

/-- Filtering digits out of an already-filtered-and-fixed string is the
identity: the fixup only ever adds the digits `6` and `2`. -/
lemma digitsOf_addCountryCode_digitsOf (l : List Char) :
    digitsOf (addCountryCode (digitsOf l)) = addCountryCode (digitsOf l) := by
  unfold digitsOf
  rw [List.filter_eq_self]
  intro c hc
  rcases addCountryCode_mem _ c hc with rfl | rfl | h
  · decide
  · decide
  · exact List.of_mem_filter h

/-! ### Claim theorems: phone normalization -/

/-- C3: for every input string, the phone normalization shared by the two
send endpoints (strip non-digits, turn a leading trunk `0` into `62`,
prepend `62` when absent, append the domain suffix) coincides with the
spec's reference algorithm, and the three spec examples normalize as
stated. -/
theorem chatIdOf_eq_specNormalize :
    (∀ s : String, chatIdOf s = specNormalize s) ∧
    chatIdOf phoneExampleTrunk = phoneExpected ∧
    chatIdOf phoneExampleCc = phoneExpected ∧
    chatIdOf phoneExampleBare = phoneExpected := by
  refine ⟨fun s => ?_, by decide, by decide, by decide⟩
  unfold chatIdOf formatPhone specNormalize digitsOf addCountryCode
  by_cases h : (s.data.filter Char.isDigit).take 1 = ['0'] <;> simp [h]

/-- C9: normalization is a total function whose output always carries the
domain suffix, and re-normalizing the digit-normalization step's own output
changes nothing: `chatIdOf (formatPhone s) = chatIdOf s`. -/
theorem chatIdOf_total_and_idem :
    (∀ s : String, ∃ d : String, chatIdOf s = d ++ "@c.us") ∧
    (∀ s : String, chatIdOf (formatPhone s) = chatIdOf s) := by
  constructor
  · exact fun s => ⟨formatPhone s, rfl⟩
  · intro s
    show formatPhone (formatPhone s) ++ _ = formatPhone s ++ _
    congr 1
    show String.mk (addCountryCode (digitsOf (addCountryCode (digitsOf s.data)))) =
      String.mk (addCountryCode (digitsOf s.data))
    rw [digitsOf_addCountryCode_digitsOf, addCountryCode_idem]

/-! ### Claim theorems: lifecycle -/

/-- A start arriving while the session initializes answers an informational
response and returns the state untouched. -/
lemma apiStart_initializing_noop {s : GatewayState}
    (h : s.isInitializing = true) :
    (apiStart s).1.status = "info" ∧ (apiStart s).2 = s := by
  unfold apiStart
  split_ifs <;> simp_all

/-- A direct `initializeClient` call while initializing returns early. -/
lemma initializeClient_initializing_noop {s : GatewayState}
    (h : s.isInitializing = true) : initializeClient s = s := by
  unfold initializeClient
  simp [h]

/-- C1: while `isInitializing` is true, an arbitrary sequence of POST
/api/start requests and direct `initializeClient` runs leaves the state
untouched — in particular the `new Client(...)` counter does not move, so no
second external client is constructed — and a start arriving in such a state
answers an informational response. -/
theorem startWhileInitializing_constructsNoClient :
    ∀ (s : GatewayState) (ops : List Op),
      s.isInitializing = true →
      (∀ op ∈ ops, op = Op.start ∨ op = Op.initClient) →
      runOps s ops = s ∧
      (runOps s ops).constructed = s.constructed ∧
      (apiStart s).1.status = "info" ∧ (apiStart s).2 = s := by
  intro s ops h hops
  have key : ∀ l : List Op,
      (∀ op ∈ l, op = Op.start ∨ op = Op.initClient) → runOps s l = s := by
    intro l
    induction l with
    | nil => intro _; rfl
    | cons op rest ih =>
      intro hl
      have hstep : applyOp s op = s := by
        rcases hl op (List.mem_cons_self op rest) with rfl | rfl
        · exact (apiStart_initializing_noop h).2
        · exact initializeClient_initializing_noop h
      have hrw : runOps s (op :: rest) = runOps (applyOp s op) rest := rfl
      rw [hrw, hstep]
      exact ih fun o ho => hl o (List.mem_cons_of_mem op ho)
  have hk := key ops hops
  exact ⟨hk, by rw [hk], (apiStart_initializing_noop h).1,
    (apiStart_initializing_noop h).2⟩

/-- Witness for C1 at the freshly booted (initializing) state and a concrete
sequence of redundant starts. -/
theorem startWhileInitializing_constructsNoClient_witness :
    runOps bootState startOpsW = bootState ∧
    (runOps bootState startOpsW).constructed = bootState.constructed ∧
    (apiStart bootState).1.status = "info" ∧
    (apiStart bootState).2 = bootState :=
  startWhileInitializing_constructsNoClient bootState startOpsW
    (by decide) (by decide)

/-- C7: a restart answers success immediately, and the state it leaves
behind until the settling timer fires (the status and QR endpoints are pure
reads, so the state cannot change before then except by a new command or
event) reports not initializing, no client, not ready and no QR. -/
theorem restart_success_then_quiescent :
    ∀ (df : Bool) (s : GatewayState),
      (apiRestart df s).response.status = "success" ∧
      (apiRestart df s).response.httpStatus = 200 ∧
      (apiStatus (apiRestart df s).state).isInitializing = false ∧
      (apiStatus (apiRestart df s).state).hasClient = false ∧
      (apiStatus (apiRestart df s).state).isReady = false ∧
      (apiStatus (apiRestart df s).state).hasQR = false :=
  fun _ _ => ⟨rfl, rfl, rfl, rfl, rfl, rfl⟩

/-- C8: a logout with no live handle answers an informational 200 and leaves
the whole state unchanged, whatever the fallibility of the handle calls. -/
theorem logout_noSession_informational_noop :
    ∀ (lf df : Bool) (s : GatewayState),
      s.client = false →
      (apiLogout lf df s).1 =
        { httpStatus := 200, status := "info"
          message := "No active session" } ∧
      (apiLogout lf df s).2 = s := by
  intro lf df s h
  constructor <;> simp [apiLogout, h]

/-- Witness for C8 at the pre-boot state, which has no handle. -/
theorem logout_noSession_informational_noop_witness :
    (apiLogout true true initialState).1 =
      { httpStatus := 200, status := "info"
        message := "No active session" } ∧
    (apiLogout true true initialState).2 = initialState :=
  logout_noSession_informational_noop true true initialState (by decide)

/-! ### Claim theorems: send endpoints -/

/-- C2: in any state that is not Ready, both send endpoints answer the
NotReady error (HTTP 400, status error) with no external call issued — in
particular before any normalization, registration check, media fetch or
send; and in a Ready state a falsy (missing or empty) phone, message or
mediaUrl field draws the InvalidRequest error (HTTP 400), again with no
external call. -/
theorem sendEndpoints_notReady_and_invalidRequest :
    ∀ (o : ClientOracle) (s : GatewayState)
      (phone message mediaUrl caption filename : Option String),
      (s.isReady = false →
        apiSendMessage o s phone message =
          ({ httpStatus := 400, status := "error"
             message := "WhatsApp is not ready" }, []) ∧
        apiSendMedia o s phone mediaUrl caption filename =
          ({ httpStatus := 400, status := "error"
             message := "WhatsApp is not ready" }, [])) ∧
      (s.isReady = true → truthy phone = false ∨ truthy message = false →
        apiSendMessage o s phone message =
          ({ httpStatus := 400, status := "error"
             message := "Phone and message are required" }, [])) ∧
      (s.isReady = true → truthy phone = false ∨ truthy mediaUrl = false →
        apiSendMedia o s phone mediaUrl caption filename =
          ({ httpStatus := 400, status := "error"
             message := "Phone and mediaUrl are required" }, [])) := by
  intro o s phone message mediaUrl caption filename
  refine ⟨fun h => ?_, fun h hv => ?_, fun h hv => ?_⟩
  · constructor <;> simp [apiSendMessage, apiSendMedia, h]
  · rcases hv with hv | hv <;> simp [apiSendMessage, h, hv]
  · rcases hv with hv | hv <;> simp [apiSendMedia, h, hv]

/-- Witness for C2: not-ready rejection at the booted state, and the
missing-phone rejection at a Ready state. -/
theorem sendEndpoints_notReady_and_invalidRequest_witness :
    apiSendMessage oracleAllRegistered bootState (some phoneW) (some msgBodyW) =
      ({ httpStatus := 400, status := "error"
         message := "WhatsApp is not ready" }, []) ∧
    apiSendMedia oracleAllRegistered readyStateW none (some mediaUrlW) none none =
      ({ httpStatus := 400, status := "error"
         message := "Phone and mediaUrl are required" }, []) :=
  ⟨((sendEndpoints_notReady_and_invalidRequest oracleAllRegistered bootState
      (some phoneW) (some msgBodyW) (some mediaUrlW) none none).1 (by decide)).1,
   (sendEndpoints_notReady_and_invalidRequest oracleAllRegistered readyStateW
      none (some msgBodyW) (some mediaUrlW) none none).2.2 (by decide)
      (Or.inl (by decide))⟩

/-- C6: `send-message` consults `isRegisteredUser` and rejects an
unregistered destination with HTTP 400 and no send; `send-media` never
consults it — its external calls are exactly the media fetch followed by the
send once the fetch succeeds. -/
theorem sendText_checksRegistration_sendMedia_doesNot :
    ∀ (o : ClientOracle) (s : GatewayState)
      (phone message mediaUrl caption filename : Option String),
      (s.isReady = true → truthy phone = true → truthy message = true →
        o.registered (chatIdOf (phone.getD emptyS)) = false →
        apiSendMessage o s phone message =
          ({ httpStatus := 400, status := "error"
             message := "Phone number is not registered on WhatsApp" },
           [Effect.isRegisteredUser (chatIdOf (phone.getD emptyS))])) ∧
      (s.isReady = true → truthy phone = true → truthy mediaUrl = true →
        (∀ c, Effect.isRegisteredUser c ∉
            (apiSendMedia o s phone mediaUrl caption filename).2) ∧
        (o.fetchOk (mediaUrl.getD emptyS) = true →
          (apiSendMedia o s phone mediaUrl caption filename).2 =
            [Effect.fetchMedia (mediaUrl.getD emptyS)
               (jsOr filename defaultFilename),
             Effect.sendMedia (chatIdOf (phone.getD emptyS))
               (jsOr caption emptyS)] ∧
          (apiSendMedia o s phone mediaUrl caption filename).1.status =
            "success")) := by
  intro o s phone message mediaUrl caption filename
  constructor
  · intro h hp hm hr
    simp [apiSendMessage, h, hp, hm, hr]
  · intro h hp hu
    constructor
    · intro c
      by_cases hf : o.fetchOk (mediaUrl.getD emptyS) = true <;>
        simp [apiSendMedia, h, hp, hu, hf]
    · intro hf
      constructor <;> simp [apiSendMedia, h, hp, hu, hf]

/-- Witness for C6: an unregistered text destination is rejected at a Ready
state, and a concrete media send issues no registration check. -/
theorem sendText_checksRegistration_sendMedia_doesNot_witness :
    apiSendMessage oracleNoneRegistered readyStateW (some phoneW) (some msgBodyW) =
      ({ httpStatus := 400, status := "error"
         message := "Phone number is not registered on WhatsApp" },
       [Effect.isRegisteredUser (chatIdOf ((some phoneW).getD emptyS))]) ∧
    (∀ c, Effect.isRegisteredUser c ∉
        (apiSendMedia oracleNoneRegistered readyStateW (some phoneW)
          (some mediaUrlW) none none).2) :=
  ⟨(sendText_checksRegistration_sendMedia_doesNot oracleNoneRegistered
      readyStateW (some phoneW) (some msgBodyW) (some mediaUrlW) none none).1
      (by decide) (by decide) (by decide) (by decide),
   ((sendText_checksRegistration_sendMedia_doesNot oracleNoneRegistered
      readyStateW (some phoneW) (some msgBodyW) (some mediaUrlW) none none).2
      (by decide) (by decide) (by decide)).1⟩

/-! ### Claim theorems: failure handling of restart and logout -/

/-- Counterexample to C4 as stated: at a Ready state with a live handle, a
logout whose `client.logout()` throws answers HTTP 500 with status error and
leaves the state — handle included — untouched, instead of discarding the
handle and reporting success.  (The state is reachable: it is
`runOps bootState [Op.readyEvent]`.) -/
theorem logoutFailure_aborts_counterexample :
    runOps bootState [Op.readyEvent] = readyStateW ∧
    (apiLogout true false readyStateW).1.httpStatus = 500 ∧
    (apiLogout true false readyStateW).1.status = "error" ∧
    (apiLogout true false readyStateW).2 = readyStateW := by
  decide

/-- C4 as amended: a destroy failure during restart is logged and does not
abort the transition — the handle is discarded, the flags reset and success
reported; but a logout()/destroy() failure during logout aborts the
transition with HTTP 500, status error, and an unchanged state. -/
theorem restart_absorbs_destroy_failure_logout_does_not :
    ∀ (lf df : Bool) (s : GatewayState),
      ((apiRestart df s).response.status = "success" ∧
       (apiRestart df s).response.httpStatus = 200 ∧
       (apiRestart df s).state.client = false ∧
       (apiRestart df s).state.isReady = false ∧
       (apiRestart df s).state.qrCodeData = none ∧
       (apiRestart df s).state.isInitializing = false ∧
       (s.client = true → df = true → (apiRestart df s).log = [destroyLogMsg])) ∧
      (s.client = true → (lf || df) = true →
        (apiLogout lf df s).1.httpStatus = 500 ∧
        (apiLogout lf df s).1.status = "error" ∧
        (apiLogout lf df s).2 = s) := by
  intro lf df s
  constructor
  · refine ⟨rfl, rfl, rfl, rfl, rfl, rfl, fun hc hd => ?_⟩
    simp [apiRestart, hc, hd]
  · intro hc hf
    refine ⟨?_, ?_, ?_⟩ <;> simp [apiLogout, hc, hf]

/-- Witness for the amended C4 at a Ready state with a live handle, with
both handle calls failing. -/
theorem restart_absorbs_destroy_failure_logout_does_not_witness :
    (apiRestart true readyStateW).log = [destroyLogMsg] ∧
    (apiLogout true true readyStateW).1.httpStatus = 500 ∧
    (apiLogout true true readyStateW).2 = readyStateW :=
  ⟨(restart_absorbs_destroy_failure_logout_does_not true true
      readyStateW).1.2.2.2.2.2.2 (by decide) (by decide),
   ((restart_absorbs_destroy_failure_logout_does_not true true
      readyStateW).2 (by decide) (by decide)).1,
   ((restart_absorbs_destroy_failure_logout_does_not true true
      readyStateW).2 (by decide) (by decide)).2.2⟩

/-! ### Claim theorems: QR visibility -/

/-- Counterexample to C5 as stated: along the reachable trace boot → ready
event → qr event, the resulting state has been reached by a `qr(data)` event
with no later lifecycle event, yet `/api/qr` answers `qr: null` (the stale
`isReady` branch masks the stored artifact) even though `hasQR` is true;
likewise an empty-string artifact received while not ready is reported by
`hasQR` but never returned by `/api/qr` (JavaScript truthiness at line
196). -/
theorem qrAfterReady_counterexample :
    (runOps bootState [Op.readyEvent, Op.qrEvent qrTokenW]).qrCodeData =
      some qrTokenW ∧
    (apiStatus (runOps bootState [Op.readyEvent, Op.qrEvent qrTokenW])).hasQR =
      true ∧
    (apiQr (runOps bootState [Op.readyEvent, Op.qrEvent qrTokenW])).qr =
      none ∧
    (apiQr (onQr emptyS bootState)).qr = none ∧
    (apiStatus (onQr emptyS bootState)).hasQR = true := by
  decide

/-- C5 as amended: after a ready event `/api/qr` answers `qr: null`; and
after a `qr(data)` event that fires while the session is not ready, with a
non-empty artifact (and no later lifecycle event), `/api/status` reports
`hasQR` true and `/api/qr` returns the stored artifact. -/
theorem ready_clears_qr_and_pending_qr_visible :
    (∀ s : GatewayState, (apiQr (onReady s)).qr = none) ∧
    (∀ (s : GatewayState) (data : String),
      s.isReady = false → data ≠ emptyS →
      (apiStatus (onQr data s)).hasQR = true ∧
      (apiQr (onQr data s)).qr = some data) := by
  constructor
  · intro s
    simp [apiQr, onReady]
  · intro s data hr hd
    constructor
    · simp [apiStatus, onQr]
    · have hd2 : ¬ data = "" := by simpa [emptyS] using hd
      simp [apiQr, onQr, truthy, hr, hd2]

/-- Witness for the amended C5 at the booted state and a concrete token. -/
theorem ready_clears_qr_and_pending_qr_visible_witness :
    (apiStatus (onQr qrTokenW bootState)).hasQR = true ∧
    (apiQr (onQr qrTokenW bootState)).qr = some qrTokenW :=
  (ready_clears_qr_and_pending_qr_visible).2 bootState qrTokenW
    (by decide) (by decide)

/-! ### Claim theorems: pending-QR states are not "initializing" -/

/-- Every single step preserves the invariant that a stored QR artifact
implies `isInitializing` is false: every writer of `qrCodeData` either
clears it or (the qr handler) clears `isInitializing` alongside. -/
lemma applyOp_preserves_qrQuietInv (s : GatewayState) (op : Op)
    (hs : s.qrCodeData.isSome = true → s.isInitializing = false) :
    (applyOp s op).qrCodeData.isSome = true →
      (applyOp s op).isInitializing = false := by
  cases op <;>
    simp only [applyOp, apiStart, initializeClient, apiRestart, apiLogout,
      onQr, onReady, onAuthenticated, onAuthFailure, onDisconnected] <;>
    (try split_ifs) <;>
    simp_all

/-- The invariant of `applyOp_preserves_qrQuietInv` is carried along any
sequence of steps. -/
lemma runOps_preserves_qrQuietInv (ops : List Op) :
    ∀ s : GatewayState,
      (s.qrCodeData.isSome = true → s.isInitializing = false) →
      ((runOps s ops).qrCodeData.isSome = true →
        (runOps s ops).isInitializing = false) := by
  induction ops with
  | nil => exact fun s hs => hs
  | cons op rest ih =>
    intro s hs
    exact ih (applyOp s op) (applyOp_preserves_qrQuietInv s op hs)

/-- C10: the qr handler clears `isInitializing` while storing the artifact;
consequently, in every reachable state with a pending QR artifact
(`qrCodeData` set and not ready), `/api/status` reports status `not_ready`
with `isInitializing` false, although the session still awaits the scan. -/
theorem qrHandler_clearsInitializing_statusNotReady :
    (∀ (qr : String) (s : GatewayState),
      (onQr qr s).isInitializing = false ∧ (onQr qr s).qrCodeData = some qr) ∧
    (∀ ops : List Op,
      (runOps bootState ops).qrCodeData.isSome = true →
      (runOps bootState ops).isReady = false →
      (apiStatus (runOps bootState ops)).status = "not_ready" ∧
      (apiStatus (runOps bootState ops)).isInitializing = false) := by
  constructor
  · exact fun qr s => ⟨rfl, rfl⟩
  · intro ops hq hr
    have hi := runOps_preserves_qrQuietInv ops bootState (by decide) hq
    constructor
    · simp [apiStatus, hr, hi]
    · simpa [apiStatus] using hi

/-- Witness for C10 along the reachable trace boot → qr event. -/
theorem qrHandler_clearsInitializing_statusNotReady_witness :
    (apiStatus (runOps bootState [Op.qrEvent qrTokenW])).status = "not_ready" ∧
    (apiStatus (runOps bootState [Op.qrEvent qrTokenW])).isInitializing =
      false :=
  (qrHandler_clearsInitializing_statusNotReady).2 [Op.qrEvent qrTokenW]
    (by decide) (by decide)
